import Mathlib

/-!
Shallow embedding of the unichain Solana approval reconciliation services.

Sources embedded:
- `src/unnamed/part_000` : the verifier service (`verifySolanaApprovals`),
  which polls the `solana_approvals` Mongo collection for records with
  `verified: { $ne: true }, executed: false`, checks the claimed approval
  transaction and each token-account delegation on chain, and writes the
  outcome back with `updateOne({ _id }, { $set: ... })`.
- `src/src/app/api/store/solana-approval/route.ts` : the ingestion POST
  handler and (after the document separator) the transfer service
  (`transferApprovedTokens`), which polls for
  `verified: true, executed: { $ne: true }, transferred: { $ne: true }`,
  builds one transfer batch per record from live token-account state and
  writes the outcome back with `updateOne({ _id }, { $set: ... })`.

Modelling conventions:
- Mongo documents become the `ApprovalRecord` structure.  Fields that the
  code only ever sets to `true` later and that are absent at insertion
  (`transferred`) are `Option Bool`; `verified` and `executed` are
  inserted as booleans by the POST handler, so they are `Bool`.
- Timestamps (`new Date()`) become a `now : Nat` clock value passed in.
- Solana RPC and key handling are oracles: structures of functions
  returning `Except String _`, where `.error msg` models a thrown
  exception caught by the corresponding `catch` in the source.
- JavaScript falsiness of an env-var string (`undefined` or `""`) is
  modelled by `Option String` being `none`; `a || b` becomes `Option.orElse`.
- `PublicKey` construction and `toString` round-trips are treated as the
  identity on address strings.
- Amounts are SPL u64 bigints; only comparison and `min` are performed on
  them, so they are `Nat`.
-/

/-- One element of a record's `approvals` array, as inserted by the POST
handler (`SolanaApprovalDetail` in route.ts). -/
structure GrantLine where
  tokenAccount : String
  mint : String
  amount : String
  decimals : Nat
  deriving Repr, DecidableEq

/-- One element of the `verificationResults` array written by the verifier. -/
structure VerificationResult where
  tokenAccount : String
  verified : Bool
  delegatedAmount : Option String
  reason : Option String
  deriving Repr, DecidableEq

/-- One element of the `transferResults` array written by the transfer
service. -/
structure TransferResult where
  tokenAccount : String
  mint : Option String
  amount : Option String
  success : Bool
  reason : Option String
  deriving Repr, DecidableEq

/-- A document of the `solana_approvals` collection.  The fields are those
inserted by the POST handler of route.ts plus every field any `$set` in
either service can add. -/
structure ApprovalRecord where
  id : Nat
  owner : String
  delegate : Option String
  approvals : List GrantLine
  transactionSignature : String
  network : String
  createdAt : Option Nat
  submitted : Bool
  submittedAt : Option Nat
  verified : Bool
  verifiedAt : Option Nat
  executed : Bool
  executedAt : Option Nat
  transferred : Option Bool
  transferredAt : Option Nat
  transferTransactionSignature : Option String
  reason : Option String
  verificationResults : List VerificationResult
  transferResults : List TransferResult
  deriving Repr, DecidableEq

/-- `transaction.meta` of a fetched Solana transaction: `err` is the
ledger-reported failure detail (already stringified), `none` on success. -/
structure TxMeta where
  err : Option String
  deriving Repr, DecidableEq

/-- A transaction returned by `connection.getTransaction`; `meta` may be
absent. -/
structure Tx where
  meta : Option TxMeta
  deriving Repr, DecidableEq

/-- On-chain state of an SPL token account as returned by `getAccount`:
current `delegate`, `delegatedAmount` (remaining allowance) and `amount`
(balance). -/
structure TokenAccountState where
  delegate : Option String
  delegatedAmount : Nat
  amount : Nat
  deriving Repr, DecidableEq

/-- Per-network configuration of the verifier service (`solanaConfig` in
part_000): RPC url and the optional env-configured delegate address. -/
structure VerifierConfig where
  rpcUrl : String
  delegateAddress : Option String
  deriving Repr, DecidableEq

/-- Per-network configuration of the transfer service (`solanaConfig` in
route.ts after the separator): RPC url, optional delegate private key and
optional destination address. -/
structure TransferConfig where
  rpcUrl : String
  delegatePrivateKey : Option String
  destinationAddress : Option String
  deriving Repr, DecidableEq

/-- Ledger oracle for the verifier: `getTransaction` and `getAccount`.
`.error msg` models a thrown RPC exception. -/
structure VerifyEnv where
  getTransaction : String → Except String (Option Tx)
  getAccount : String → Except String TokenAccountState

/-- An SPL transfer instruction as built by `createTransferInstruction`. -/
structure TransferInstruction where
  source : String
  destination : String
  authority : String
  amount : Nat
  deriving Repr, DecidableEq

/-- Ledger/key oracle for the transfer service.  `parseKeypair` models
`getKeypairFromPrivateKey` returning the keypair's public address or
throwing; `getParsedTokenAccountsByOwner` returns the destination's token
account pubkeys for a mint; `submitAndConfirm` folds
`getLatestBlockhash`, `sign`, `sendRawTransaction` and `confirmTransaction`
into one call returning the settlement signature or throwing. -/
structure TransferEnv where
  parseKeypair : String → Except String String
  getAccount : String → Except String TokenAccountState
  getParsedTokenAccountsByOwner : String → String → Except String (List String)
  submitAndConfirm : List TransferInstruction → Except String String

/-! ## Store queries and updates -/

/-- The verifier's find filter
`{ verified: { $ne: true }, executed: false }` (part_000 line 27). -/
def verifierQuery (r : ApprovalRecord) : Bool :=
  (r.verified != true) && (r.executed == false)

/-- The transfer service's find filter
`{ verified: true, executed: { $ne: true }, transferred: { $ne: true } }`
(route.ts line 127 after the separator). -/
def transferQuery (r : ApprovalRecord) : Bool :=
  (r.verified == true) && (r.executed != true) && !(r.transferred == some true)

/-- `updateOne({ _id: filterId }, { $set: ... })` on the collection: the
filter of every update either service issues contains only the `_id`
equality.  `_id` is unique within a collection, so at most one document
matches and mapping over the whole store is faithful. -/
def updateOne (filterId : Nat) (setFields : ApprovalRecord → ApprovalRecord)
    (store : List ApprovalRecord) : List ApprovalRecord :=
  store.map (fun r => if r.id == filterId then setFields r else r)

/-- `$set { executed: true, executedAt, reason }`: used by the verifier for
a missing/failed/unfetchable claim transaction and by the transfer service
for any error thrown while processing one record. -/
def markExecuted (now : Nat) (why : String) (r : ApprovalRecord) : ApprovalRecord :=
  { r with executed := true, executedAt := some now, reason := some why }

/-- `$set { verified: true, verifiedAt, verificationResults }` (part_000
line 145). -/
def markVerified (now : Nat) (results : List VerificationResult)
    (r : ApprovalRecord) : ApprovalRecord :=
  { r with verified := true, verifiedAt := some now, verificationResults := results }

/-- `$set { verified: false, verifiedAt, verificationResults, reason }`
(part_000 line 157). -/
def markVerificationFailed (now : Nat) (results : List VerificationResult)
    (r : ApprovalRecord) : ApprovalRecord :=
  { r with verified := false, verifiedAt := some now, verificationResults := results,
           reason := some "Some approvals failed verification" }

/-- `$set { transferred: true, transferredAt, transferResults, reason }`
written when the built batch has no instructions (route.ts line 276). -/
def markTransferredEmpty (now : Nat) (results : List TransferResult)
    (r : ApprovalRecord) : ApprovalRecord :=
  { r with transferred := some true, transferredAt := some now, transferResults := results,
           reason := some "No valid transfers to execute" }

/-- `$set { transferred: true, transferredAt, transferTransactionSignature,
transferResults }` written after a confirmed batch (route.ts line 307). -/
def markTransferredSuccess (now : Nat) (sig : String) (results : List TransferResult)
    (r : ApprovalRecord) : ApprovalRecord :=
  { r with transferred := some true, transferredAt := some now,
           transferTransactionSignature := some sig, transferResults := results }

/-! ## Verifier (`verifySolanaApprovals`, part_000) -/

/-- `const delegateToCheck = delegateAddress || delegate` (part_000
line 50): the env-configured address when truthy, else the record's
`delegate` field. -/
def delegateToCheck (c : VerifierConfig) (r : ApprovalRecord) : Option String :=
  c.delegateAddress.orElse (fun _ => r.delegate)

/-- `JSON.stringify(transaction.meta?.err)` interpolated into the failure
reason: if `meta` is absent the optional chain yields `undefined`, which
interpolates as the string `"undefined"`; if `meta.err` is set it is the
stringified error; `none` means the transaction succeeded. -/
def txFailureDetail (tx : Tx) : Option String :=
  match tx.meta with
  | none => some "undefined"
  | some m => m.err

/-- The per-grant on-chain check of part_000 lines 103-141: fetch the token
account, require its current delegate to equal the expected delegate and
its `delegatedAmount` to be positive; a thrown fetch error becomes that
grant's failure with the error message as reason. -/
def checkGrant (env : VerifyEnv) (delegatePub : String) (g : GrantLine) :
    VerificationResult :=
  match env.getAccount g.tokenAccount with
  | .error e =>
      { tokenAccount := g.tokenAccount, verified := false,
        delegatedAmount := none, reason := some e }
  | .ok acct =>
      let isDelegateSet := acct.delegate == some delegatePub
      let hasAllowance := decide (0 < acct.delegatedAmount)
      if isDelegateSet && hasAllowance then
        { tokenAccount := g.tokenAccount, verified := true,
          delegatedAmount := some (toString acct.delegatedAmount), reason := none }
      else
        { tokenAccount := g.tokenAccount, verified := false, delegatedAmount := none,
          reason := some (if isDelegateSet then "No allowance set" else "Delegate not set") }

/-- The grant loop and the verdict write of part_000 lines 99-169: every
grant is checked independently, `verificationResults` collects the
per-grant outcomes, and the record is marked verified exactly when the
running `allVerified` flag survived every grant. -/
def verifyGrants (env : VerifyEnv) (d : String) (now : Nat)
    (r : ApprovalRecord) : ApprovalRecord :=
  if (r.approvals.map (checkGrant env d)).all (fun v => v.verified) then
    markVerified now (r.approvals.map (checkGrant env d)) r
  else
    markVerificationFailed now (r.approvals.map (checkGrant env d)) r

/-- Processing of one fetched record inside the verifier's loop (part_000
lines 39-183).  Skips (`continue` with no store write) leave the record
unchanged; every store write is one of the `mark…` updates above. -/
def verifyStep (cfg : String → Option VerifierConfig) (env : VerifyEnv) (now : Nat)
    (r : ApprovalRecord) : ApprovalRecord :=
  if r.network.isEmpty then r
  else
    match cfg r.network with
    | none => r
    | some c =>
      match delegateToCheck c r with
      | none => r
      | some d =>
        match env.getTransaction r.transactionSignature with
        | .error e => markExecuted now ("Transaction fetch error: " ++ e) r
        | .ok none => markExecuted now "Transaction not found on-chain" r
        | .ok (some tx) =>
          match txFailureDetail tx with
          | some errDetail => markExecuted now ("Transaction failed: " ++ errDetail) r
          | none => verifyGrants env d now r

/-- One cycle of the verifier service: every record matching the find
filter is processed, each written back by an `_id`-keyed update. -/
def verifyCycle (cfg : String → Option VerifierConfig) (env : VerifyEnv) (now : Nat)
    (store : List ApprovalRecord) : List ApprovalRecord :=
  store.map (fun r => if verifierQuery r then verifyStep cfg env now r else r)

/-! ## Transfer service (`transferApprovedTokens`, route.ts) -/

/-- A grant failure entry pushed onto `transferResults`
(`{ tokenAccount, success: false, reason }`). -/
def failedTransferResult (g : GrantLine) (why : String) : TransferResult :=
  { tokenAccount := g.tokenAccount, mint := none, amount := none,
    success := false, reason := some why }

/-- The per-grant transfer amount of route.ts line 210:
`transferAmount = delegatedAmount < amount ? delegatedAmount : amount`. -/
def transferAmountOf (acct : TokenAccountState) : Nat :=
  if acct.delegatedAmount < acct.amount then acct.delegatedAmount else acct.amount

/-- Processing of one grant inside the transfer loop (route.ts lines
182-272): re-read the live token account, require the delegate to be set to
the signing key's address and a positive allowance, take the transfer
amount `transferAmountOf`, require a destination token account for the
mint, and either emit a transfer instruction plus a success result or a
failure result with the specific reason; a thrown error is that grant's
failure. -/
def processGrant (env : TransferEnv) (delegatePub destinationAddr : String)
    (g : GrantLine) : TransferResult × Option TransferInstruction :=
  match env.getAccount g.tokenAccount with
  | .error e => (failedTransferResult g e, none)
  | .ok acct =>
    if acct.delegate != some delegatePub then
      (failedTransferResult g "Delegate not set", none)
    else if acct.delegatedAmount == 0 then
      (failedTransferResult g "No delegated amount", none)
    else
      if transferAmountOf acct == 0 then
        (failedTransferResult g "No balance to transfer", none)
      else
        match env.getParsedTokenAccountsByOwner destinationAddr g.mint with
        | .error e => (failedTransferResult g e, none)
        | .ok [] => (failedTransferResult g "Destination token account not found", none)
        | .ok (destAcct :: _) =>
          ({ tokenAccount := g.tokenAccount, mint := some g.mint,
             amount := some (toString (transferAmountOf acct)), success := true,
             reason := none },
           some { source := g.tokenAccount, destination := destAcct,
                  authority := delegatePub, amount := transferAmountOf acct })

/-- The `transferResults` array the batch loop accumulates (route.ts lines
182-272), one entry per grant in order. -/
def batchResults (env : TransferEnv) (delegatePub destinationAddr : String)
    (gs : List GrantLine) : List TransferResult :=
  gs.map (fun g => (processGrant env delegatePub destinationAddr g).1)

/-- The instructions added to `transaction.instructions` by the batch loop:
one per grant that passed every pre-submission check. -/
def batchInstructions (env : TransferEnv) (delegatePub destinationAddr : String)
    (gs : List GrantLine) : List TransferInstruction :=
  gs.filterMap (fun g => (processGrant env delegatePub destinationAddr g).2)

/-- The batch build-and-submit of route.ts lines 178-317: an empty batch is
closed as transferred with reason `No valid transfers to execute`; otherwise
the batch is signed, sent and awaited, a throw becoming the record-boundary
`Transfer error:` write and a confirmation becoming the transferred write
with the settlement signature. -/
def executeTransfers (env : TransferEnv) (delegatePub destinationAddr : String)
    (now : Nat) (r : ApprovalRecord) : ApprovalRecord :=
  if (batchInstructions env delegatePub destinationAddr r.approvals).isEmpty then
    markTransferredEmpty now (batchResults env delegatePub destinationAddr r.approvals) r
  else
    match env.submitAndConfirm (batchInstructions env delegatePub destinationAddr r.approvals) with
    | .error e => markExecuted now ("Transfer error: " ++ e) r
    | .ok sig =>
        markTransferredSuccess now sig
          (batchResults env delegatePub destinationAddr r.approvals) r

/-- Processing of one fetched record inside the transfer loop (route.ts
lines 140-333).  Config gaps and the delegate mismatch `continue` with no
store write; a thrown error (invalid key material, submission or
confirmation failure) is caught at the record boundary and written as
`executed: true` with a `Transfer error:` reason. -/
def transferStep (cfg : String → Option TransferConfig) (env : TransferEnv) (now : Nat)
    (r : ApprovalRecord) : ApprovalRecord :=
  if r.network.isEmpty then r
  else
    match cfg r.network with
    | none => r
    | some c =>
      match c.delegatePrivateKey with
      | none => r
      | some pk =>
        match c.destinationAddress with
        | none => r
        | some dest =>
          match env.parseKeypair pk with
          | .error e => markExecuted now ("Transfer error: " ++ e) r
          | .ok delegatePub =>
            if r.delegate != some delegatePub then r
            else executeTransfers env delegatePub dest now r

/-- One cycle of the transfer service: every record matching the find
filter is processed, each written back by an `_id`-keyed update. -/
def transferCycle (cfg : String → Option TransferConfig) (env : TransferEnv) (now : Nat)
    (store : List ApprovalRecord) : List ApprovalRecord :=
  store.map (fun r => if transferQuery r then transferStep cfg env now r else r)

/-! ## Lifecycle abstraction

The spec's `lifecycleState` is an abstraction of the stored boolean flags.
The mapping follows the spec's data model: a record fresh from ingestion is
`Submitted`; `verified: true` with nothing further is `Verified`;
`verified: false` after a verification pass (`verifiedAt` written by
`markVerificationFailed`) or `executed: true` while unverified (the
transaction-absent/failed/fetch-error updates) is `VerificationFailed`;
`transferred: true` is `Transferred`; `executed: true` on a verified record
(the transfer-error update) is `TransferFailed`. -/

inductive LifecycleState where
  | Submitted
  | Verified
  | VerificationFailed
  | Transferred
  | TransferFailed
  deriving Repr, DecidableEq

/-- Abstraction from stored flags to the spec's lifecycle state. -/
def lifecycleState (r : ApprovalRecord) : LifecycleState :=
  if r.transferred == some true then .Transferred
  else if r.executed then
    (if r.verified then .TransferFailed else .VerificationFailed)
  else if r.verified then .Verified
  else if r.verifiedAt.isSome then .VerificationFailed
  else .Submitted

/-- The transition edges the claim under test allows: staying put, or
`Submitted → Verified | VerificationFailed`, or
`Verified → Transferred | TransferFailed`. -/
def specAllowedMove (s t : LifecycleState) : Bool :=
  (s == t) ||
    match s, t with
    | .Submitted, .Verified => true
    | .Submitted, .VerificationFailed => true
    | .Verified, .Transferred => true
    | .Verified, .TransferFailed => true
    | _, _ => false

/-- The edge set the code actually realises: the spec's edges plus
re-examination of a failed verification, which may promote the record
(`VerificationFailed → Verified`). -/
def codeAllowedMove (s t : LifecycleState) : Bool :=
  specAllowedMove s t ||
    match s, t with
    | .VerificationFailed, .Verified => true
    | _, _ => false

/-! ## Concrete fixtures used by witnesses and counterexamples -/

/-- A sample grant line. -/
def sampleGrant : GrantLine :=
  { tokenAccount := "TOKACC1", mint := "MINT1", amount := "1000", decimals := 6 }

/-- A freshly ingested record, exactly as the POST handler inserts it. -/
def submittedRec : ApprovalRecord :=
  { id := 1, owner := "OWNER1", delegate := some "DLG",
    approvals := [sampleGrant], transactionSignature := "SIG1",
    network := "mainnet-beta", createdAt := some 0, submitted := true,
    submittedAt := some 0, verified := false, verifiedAt := none,
    executed := false, executedAt := none, transferred := none,
    transferredAt := none, transferTransactionSignature := none,
    reason := none, verificationResults := [], transferResults := [] }

/-- A record the verifier has marked as failed verification
(`markVerificationFailed`): `verified: false`, `executed: false`,
`verifiedAt` and `reason` written. -/
def failedVerifRec : ApprovalRecord :=
  { submittedRec with
    verifiedAt := some 3,
    verificationResults :=
      [{ tokenAccount := "TOKACC1", verified := false, delegatedAmount := none,
         reason := some "Delegate not set" }],
    reason := some "Some approvals failed verification" }

/-- A record the verifier has marked verified. -/
def verifiedRec : ApprovalRecord :=
  { submittedRec with
    verified := true,
    verifiedAt := some 3,
    verificationResults :=
      [{ tokenAccount := "TOKACC1", verified := true,
         delegatedAmount := some "5", reason := none }] }

/-- Verifier network configuration with an env-configured delegate. -/
def cfgV : String → Option VerifierConfig := fun n =>
  if n == "mainnet-beta" then
    some { rpcUrl := "https://api.mainnet-beta.solana.com", delegateAddress := some "DLG" }
  else none

/-- Transfer network configuration with key material and destination set. -/
def cfgT : String → Option TransferConfig := fun n =>
  if n == "mainnet-beta" then
    some { rpcUrl := "https://api.mainnet-beta.solana.com",
           delegatePrivateKey := some "KEYMATERIAL", destinationAddress := some "DEST" }
  else none

/-- Verifier oracle on which the claim transaction succeeded and every
token account carries a positive allowance delegated to `DLG`. -/
def envAllPass : VerifyEnv :=
  { getTransaction := fun _ => .ok (some { meta := some { err := none } }),
    getAccount := fun _ => .ok { delegate := some "DLG", delegatedAmount := 5, amount := 9 } }

/-- Verifier oracle on which every RPC call throws (a transient network
outage). -/
def envNetErr : VerifyEnv :=
  { getTransaction := fun _ => .error "network timeout",
    getAccount := fun _ => .error "network timeout" }

/-- Verifier oracle on which the claim transaction does not exist. -/
def envNotFound : VerifyEnv :=
  { getTransaction := fun _ => .ok none,
    getAccount := fun _ => .ok { delegate := some "DLG", delegatedAmount := 5, amount := 9 } }

/-- Transfer oracle whose key parsing throws the invalid-format error of
`getKeypairFromPrivateKey`; other calls also throw. -/
def envBadKey : TransferEnv :=
  { parseKeypair := fun _ =>
      .error "Invalid private key format. Use base64 encoded 64-byte secret key or JSON array.",
    getAccount := fun _ => .error "unreachable",
    getParsedTokenAccountsByOwner := fun _ _ => .error "unreachable",
    submitAndConfirm := fun _ => .error "unreachable" }

/-- Transfer oracle where the key parses to `DLG`, the token account holds
`delegatedAmount = 500, amount = 300` delegated to `DLG`, the destination
has a token account, and submission confirms with signature `XFERSIG`. -/
def envXferOk : TransferEnv :=
  { parseKeypair := fun _ => .ok "DLG",
    getAccount := fun _ => .ok { delegate := some "DLG", delegatedAmount := 500, amount := 300 },
    getParsedTokenAccountsByOwner := fun _ _ => .ok ["DESTTOK1"],
    submitAndConfirm := fun _ => .ok "XFERSIG" }

/-- Refinement target, following the claim's words: a grant line "passes
both checks" when the fetched account's current delegate equals the
expected delegate and its delegated allowance is strictly positive. -/
def grantPassesChecks (env : VerifyEnv) (d : String) (g : GrantLine) : Prop :=
  ∃ a, env.getAccount g.tokenAccount = Except.ok a ∧
    a.delegate = some d ∧ 0 < a.delegatedAmount

/-- Replace each grant line's claimed `amount` and `decimals`, keeping
everything else of the record. -/
def setGrantAmounts (amts : GrantLine → String) (decs : GrantLine → Nat)
    (r : ApprovalRecord) : ApprovalRecord :=
  { r with approvals :=
      r.approvals.map (fun g => { g with amount := amts g, decimals := decs g }) }

/-- Overwrite the record's `delegate` field. -/
def setDelegate (d0 : Option String) (r : ApprovalRecord) : ApprovalRecord :=
  { r with delegate := d0 }

/-- The mainnet verifier configuration used by the fixtures. -/
def cV : VerifierConfig :=
  { rpcUrl := "https://api.mainnet-beta.solana.com", delegateAddress := some "DLG" }

/-- The mainnet transfer configuration used by the fixtures. -/
def cT : TransferConfig :=
  { rpcUrl := "https://api.mainnet-beta.solana.com",
    delegatePrivateKey := some "KEYMATERIAL", destinationAddress := some "DEST" }

/-- A verified record on a network absent from the configuration. -/
def unknownNetRec : ApprovalRecord :=
  { verifiedRec with network := "devnet" }

/-! ## Helper lemmas about the lifecycle abstraction -/

theorem lifecycleState_markExecuted (now : Nat) (s : String) (r : ApprovalRecord) :
    lifecycleState (markExecuted now s r) =
      if r.transferred == some true then .Transferred
      else if r.verified then .TransferFailed else .VerificationFailed := by
  simp [lifecycleState, markExecuted]

theorem lifecycleState_markVerified (now : Nat) (res : List VerificationResult)
    (r : ApprovalRecord) :
    lifecycleState (markVerified now res r) =
      if r.transferred == some true then .Transferred
      else if r.executed then .TransferFailed else .Verified := by
  simp [lifecycleState, markVerified]

theorem lifecycleState_markVerificationFailed (now : Nat) (res : List VerificationResult)
    (r : ApprovalRecord) :
    lifecycleState (markVerificationFailed now res r) =
      if r.transferred == some true then .Transferred
      else .VerificationFailed := by
  by_cases h : r.executed <;> simp [lifecycleState, markVerificationFailed, h]

theorem lifecycleState_markTransferredEmpty (now : Nat) (res : List TransferResult)
    (r : ApprovalRecord) :
    lifecycleState (markTransferredEmpty now res r) = .Transferred := by
  simp [lifecycleState, markTransferredEmpty]

theorem lifecycleState_markTransferredSuccess (now : Nat) (sig : String)
    (res : List TransferResult) (r : ApprovalRecord) :
    lifecycleState (markTransferredSuccess now sig res r) = .Transferred := by
  simp [lifecycleState, markTransferredSuccess]

theorem lifecycleState_unverified (r : ApprovalRecord) (hv : r.verified = false)
    (he : r.executed = false) :
    lifecycleState r =
      if r.transferred == some true then .Transferred
      else if r.verifiedAt.isSome then .VerificationFailed else .Submitted := by
  simp [lifecycleState, hv, he]

theorem lifecycleState_pre_transfer (r : ApprovalRecord) (hv : r.verified = true)
    (he : r.executed = false) (ht : (r.transferred == some true) = false) :
    lifecycleState r = .Verified := by
  simp [lifecycleState, hv, he, ht]

theorem move_markExecuted_unverified (now : Nat) (s : String)
    (r : ApprovalRecord) (hv : r.verified = false) (he : r.executed = false) :
    codeAllowedMove (lifecycleState r) (lifecycleState (markExecuted now s r)) = true := by
  rw [lifecycleState_markExecuted, lifecycleState_unverified r hv he, hv]
  cases htr : r.transferred == some true <;>
    cases hva : r.verifiedAt.isSome <;>
    simp [codeAllowedMove, specAllowedMove]

theorem move_verifyGrants (env : VerifyEnv) (d : String) (now : Nat)
    (r : ApprovalRecord) (hv : r.verified = false) (he : r.executed = false) :
    codeAllowedMove (lifecycleState r) (lifecycleState (verifyGrants env d now r)) = true := by
  unfold verifyGrants
  split
  · rw [lifecycleState_markVerified, lifecycleState_unverified r hv he, he]
    cases htr : r.transferred == some true <;>
      cases hva : r.verifiedAt.isSome <;>
      simp [codeAllowedMove, specAllowedMove]
  · rw [lifecycleState_markVerificationFailed, lifecycleState_unverified r hv he]
    cases htr : r.transferred == some true <;>
      cases hva : r.verifiedAt.isSome <;>
      simp [codeAllowedMove, specAllowedMove]

theorem move_executeTransfers (env : TransferEnv) (p dest : String) (now : Nat)
    (r : ApprovalRecord) (hv : r.verified = true) (he : r.executed = false)
    (ht : (r.transferred == some true) = false) :
    codeAllowedMove (lifecycleState r)
      (lifecycleState (executeTransfers env p dest now r)) = true := by
  unfold executeTransfers
  rw [lifecycleState_pre_transfer r hv he ht]
  split
  · rw [lifecycleState_markTransferredEmpty]
    simp [codeAllowedMove, specAllowedMove]
  · split
    · rw [lifecycleState_markExecuted, ht, hv]
      simp [codeAllowedMove, specAllowedMove]
    · rw [lifecycleState_markTransferredSuccess]
      simp [codeAllowedMove, specAllowedMove]

/-! ## Claim C1 -/

/-- Claim C1, counterexample: the claim says of two cycles racing on the
same record at most one conditional update succeeds and the other changes
nothing.  On the code's updates, whose filter is the `_id` alone, two racing
verifier cycles that both read the same `Submitted` record both write: the
first update changes the store, the second changes it again and overwrites
the first verdict (the record ends unverified although a cycle had just
marked it verified). -/
theorem race_both_updates_write :
    updateOne 1 (markVerified 10 []) [submittedRec] ≠ [submittedRec] ∧
    updateOne 1 (markVerificationFailed 11 [])
        (updateOne 1 (markVerified 10 []) [submittedRec]) ≠
      updateOne 1 (markVerified 10 []) [submittedRec] ∧
    (updateOne 1 (markVerificationFailed 11 [])
        (updateOne 1 (markVerified 10 []) [submittedRec])).map ApprovalRecord.verified
      = [false] := by decide

/-- Claim C1, amended: every lifecycle-state mutation the Verifier or the
Transfer Executor writes is an `updateOne` whose filter contains only the
record's `_id` and no condition on the prior lifecycle state: applied to a
record with the matching id it overwrites unconditionally, so of two racing
cycles both updates succeed and the later write wins. -/
theorem updateOne_filters_by_id_only (i now1 now2 : Nat)
    (res1 res2 : List VerificationResult) (store : List ApprovalRecord) :
    (∀ r : ApprovalRecord, r.id = i →
        updateOne i (markVerified now1 res1) [r] = [markVerified now1 res1 r]) ∧
    updateOne i (markVerificationFailed now2 res2)
        (updateOne i (markVerified now1 res1) store) =
      store.map (fun r => if r.id == i then
        markVerificationFailed now2 res2 (markVerified now1 res1 r) else r) := by
  constructor
  · intro r hr
    simp [updateOne, hr]
  · simp only [updateOne, List.map_map]
    congr 1
    funext r
    by_cases h : r.id = i <;> simp [Function.comp, h, markVerified]

/-- Claim C1, witness: the unguarded update applies even to a record that
is already `Verified`, i.e. not in the expected prior state. -/
theorem updateOne_filters_by_id_only_witness :
    updateOne 1 (markVerified 10 []) [verifiedRec] = [markVerified 10 [] verifiedRec] :=
  (updateOne_filters_by_id_only 1 10 11 [] [] []).1 verifiedRec rfl

/-! ## Claim C2 -/

/-- Claim C2, counterexample: a record marked `VerificationFailed` by a
failed grant verification (`verified: false`, `executed: false`) is in a
verifier-terminal state per the claim, yet the verifier's query selects it
again and re-running the verifier changes its fields. -/
theorem reverify_failed_record_not_noop :
    lifecycleState failedVerifRec = .VerificationFailed ∧
    verifierQuery failedVerifRec = true ∧
    verifyStep cfgV envAllPass 9 failedVerifRec ≠ failedVerifRec := by decide

/-- Claim C2, amended: re-running a stage on a terminal record is a no-op
for `Verified` records (verifier stage), for `Transferred` and
`TransferFailed` records (executor stage), and for `VerificationFailed`
records reached through the `executed: true` writes; but a record marked
`VerificationFailed` by failed grant verification keeps
`verified: false, executed: false` and is selected again by the verifier's
query on every later cycle. -/
theorem terminal_noop_guards (r : ApprovalRecord) :
    (lifecycleState r = .Verified → verifierQuery r = false) ∧
    (lifecycleState r = .Transferred → transferQuery r = false) ∧
    (lifecycleState r = .TransferFailed → transferQuery r = false) ∧
    (lifecycleState r = .VerificationFailed → r.executed = true → verifierQuery r = false) ∧
    (r.verified = false → r.executed = false → verifierQuery r = true) := by
  unfold lifecycleState verifierQuery transferQuery
  split_ifs <;> simp_all

/-- Claim C2, witness: a verified record is not selected by the verifier's
query. -/
theorem terminal_noop_guards_witness :
    lifecycleState verifiedRec = .Verified ∧ verifierQuery verifiedRec = false :=
  ⟨by decide, (terminal_noop_guards verifiedRec).1 (by decide)⟩

/-! ## Claim C5 -/

/-- Claim C5, counterexample: the verifier can move a record along the edge
`VerificationFailed → Verified`, which the claim's edge set does not
contain: a record that failed verification is re-selected on a later cycle
and, the on-chain state now passing, promoted to verified. -/
theorem verification_failed_record_promoted :
    lifecycleState failedVerifRec = .VerificationFailed ∧
    lifecycleState (verifyStep cfgV envAllPass 9 failedVerifRec) = .Verified ∧
    specAllowedMove .VerificationFailed .Verified = false := by decide

/-- Claim C5, amended: on records their queries select, the verifier and
the transfer service only ever move a record along
`Submitted → Verified | VerificationFailed`,
`Verified → Transferred | TransferFailed`, the re-examination edge
`VerificationFailed → Verified`, or leave its state unchanged; no record
regresses. -/
theorem lifecycle_moves_allowed (cfg1 : String → Option VerifierConfig)
    (cfg2 : String → Option TransferConfig) (env1 : VerifyEnv) (env2 : TransferEnv)
    (now : Nat) (r : ApprovalRecord) :
    (verifierQuery r = true →
      codeAllowedMove (lifecycleState r)
        (lifecycleState (verifyStep cfg1 env1 now r)) = true) ∧
    (transferQuery r = true →
      codeAllowedMove (lifecycleState r)
        (lifecycleState (transferStep cfg2 env2 now r)) = true) := by
  constructor
  · intro hq
    simp only [verifierQuery, Bool.and_eq_true, bne_iff_ne, beq_iff_eq, ne_eq] at hq
    have hv : r.verified = false := by
      rcases hq with ⟨h1, _⟩
      cases hvv : r.verified
      · rfl
      · exact absurd hvv h1
    have he : r.executed = false := hq.2
    unfold verifyStep
    split
    · simp [codeAllowedMove, specAllowedMove]
    · split
      · simp [codeAllowedMove, specAllowedMove]
      · split
        · simp [codeAllowedMove, specAllowedMove]
        · split
          · exact move_markExecuted_unverified now _ r hv he
          · exact move_markExecuted_unverified now _ r hv he
          · split
            · exact move_markExecuted_unverified now _ r hv he
            · exact move_verifyGrants env1 _ now r hv he
  · intro hq
    simp only [transferQuery, Bool.and_eq_true, bne_iff_ne, beq_iff_eq, ne_eq,
      Bool.not_eq_true'] at hq
    have hv : r.verified = true := hq.1.1
    have he : r.executed = false := by
      rcases hq with ⟨⟨_, h2⟩, _⟩
      cases hee : r.executed
      · rfl
      · exact absurd hee h2
    have ht : (r.transferred == some true) = false := hq.2
    unfold transferStep
    split
    · simp [codeAllowedMove, specAllowedMove]
    · split
      · simp [codeAllowedMove, specAllowedMove]
      · split
        · simp [codeAllowedMove, specAllowedMove]
        · split
          · simp [codeAllowedMove, specAllowedMove]
          · split
            · rw [lifecycleState_markExecuted, lifecycleState_pre_transfer r hv he ht, ht, hv]
              simp [codeAllowedMove, specAllowedMove]
            · split
              · simp [codeAllowedMove, specAllowedMove]
              · exact move_executeTransfers env2 _ _ now r hv he ht

/-- Claim C5, witness: the move the verifier makes on a freshly submitted
record under a passing ledger is an allowed one. -/
theorem lifecycle_moves_allowed_witness :
    verifierQuery submittedRec = true ∧
    codeAllowedMove (lifecycleState submittedRec)
      (lifecycleState (verifyStep cfgV envAllPass 9 submittedRec)) = true :=
  ⟨by decide, (lifecycle_moves_allowed cfgV cfgT envAllPass envXferOk 9 submittedRec).1
    (by decide)⟩

/-! ## Claim C9 -/

/-- Claim C9: the transfer service's query selects exactly the records with
`verified` equal to `true` that are neither executed nor transferred; in
particular a record whose verification failed or never ran
(`verified: false`) is never picked up for transfer. -/
theorem transferQuery_only_verified (r : ApprovalRecord) :
    (transferQuery r = true ↔
      r.verified = true ∧ r.executed = false ∧ r.transferred ≠ some true) ∧
    (r.verified = false → transferQuery r = false) := by
  constructor
  · unfold transferQuery
    cases hv : r.verified <;> cases he : r.executed <;> simp_all
  · intro h
    simp [transferQuery, h]

/-- Claim C9, witness: a record that failed verification is not selected by
the transfer query. -/
theorem transferQuery_only_verified_witness :
    transferQuery failedVerifRec = false :=
  (transferQuery_only_verified failedVerifRec).2 rfl

/-! ## Branch characterizations of the verifier step -/

theorem verifyStep_skip_empty (cfg : String → Option VerifierConfig) (env : VerifyEnv)
    (now : Nat) (r : ApprovalRecord) (hn : r.network.isEmpty = true) :
    verifyStep cfg env now r = r := by
  unfold verifyStep
  simp [hn]

theorem verifyStep_skip_nocfg (cfg : String → Option VerifierConfig) (env : VerifyEnv)
    (now : Nat) (r : ApprovalRecord) (hn : r.network.isEmpty = false)
    (hc : cfg r.network = none) :
    verifyStep cfg env now r = r := by
  unfold verifyStep
  simp [hn, hc]

theorem verifyStep_skip_nodelegate (cfg : String → Option VerifierConfig) (env : VerifyEnv)
    (now : Nat) (r : ApprovalRecord) (c : VerifierConfig)
    (hn : r.network.isEmpty = false) (hc : cfg r.network = some c)
    (hd : delegateToCheck c r = none) :
    verifyStep cfg env now r = r := by
  unfold verifyStep
  simp [hn, hc, hd]

theorem verifyStep_fetch_error (cfg : String → Option VerifierConfig) (env : VerifyEnv)
    (now : Nat) (r : ApprovalRecord) (c : VerifierConfig) (d e : String)
    (hn : r.network.isEmpty = false) (hc : cfg r.network = some c)
    (hd : delegateToCheck c r = some d)
    (htx : env.getTransaction r.transactionSignature = Except.error e) :
    verifyStep cfg env now r = markExecuted now ("Transaction fetch error: " ++ e) r := by
  unfold verifyStep
  simp [hn, hc, hd, htx]

theorem verifyStep_tx_notfound (cfg : String → Option VerifierConfig) (env : VerifyEnv)
    (now : Nat) (r : ApprovalRecord) (c : VerifierConfig) (d : String)
    (hn : r.network.isEmpty = false) (hc : cfg r.network = some c)
    (hd : delegateToCheck c r = some d)
    (htx : env.getTransaction r.transactionSignature = Except.ok none) :
    verifyStep cfg env now r = markExecuted now "Transaction not found on-chain" r := by
  unfold verifyStep
  simp [hn, hc, hd, htx]

theorem verifyStep_tx_failed (cfg : String → Option VerifierConfig) (env : VerifyEnv)
    (now : Nat) (r : ApprovalRecord) (c : VerifierConfig) (d dtl : String) (tx : Tx)
    (hn : r.network.isEmpty = false) (hc : cfg r.network = some c)
    (hd : delegateToCheck c r = some d)
    (htx : env.getTransaction r.transactionSignature = Except.ok (some tx))
    (hm : txFailureDetail tx = some dtl) :
    verifyStep cfg env now r = markExecuted now ("Transaction failed: " ++ dtl) r := by
  unfold verifyStep
  simp [hn, hc, hd, htx, hm]

theorem verifyStep_tx_ok (cfg : String → Option VerifierConfig) (env : VerifyEnv)
    (now : Nat) (r : ApprovalRecord) (c : VerifierConfig) (d : String) (tx : Tx)
    (hn : r.network.isEmpty = false) (hc : cfg r.network = some c)
    (hd : delegateToCheck c r = some d)
    (htx : env.getTransaction r.transactionSignature = Except.ok (some tx))
    (hm : txFailureDetail tx = none) :
    verifyStep cfg env now r = verifyGrants env d now r := by
  unfold verifyStep
  simp [hn, hc, hd, htx, hm]

theorem checkGrant_verified_iff (env : VerifyEnv) (d : String) (g : GrantLine) :
    (checkGrant env d g).verified = true ↔ grantPassesChecks env d g := by
  unfold checkGrant grantPassesChecks
  cases h : env.getAccount g.tokenAccount with
  | error e => simp
  | ok a =>
    by_cases hd : a.delegate = some d
    · by_cases ha : 0 < a.delegatedAmount
      · simp [hd, ha]
      · simp [hd, ha]
    · simp [hd]

theorem checkGrant_failed_reason (env : VerifyEnv) (d : String) (g : GrantLine) :
    (checkGrant env d g).verified = false → (checkGrant env d g).reason.isSome = true := by
  unfold checkGrant
  cases h : env.getAccount g.tokenAccount with
  | error e => simp
  | ok a =>
    by_cases hb : ((a.delegate == some d) && decide (0 < a.delegatedAmount)) = true
    · simp [hb]
    · simp [hb]

theorem allGrantsPass_iff (env : VerifyEnv) (d : String) (gs : List GrantLine) :
    ((gs.map (checkGrant env d)).all fun v => v.verified) = true ↔
      ∀ g ∈ gs, grantPassesChecks env d g := by
  rw [List.all_eq_true]
  constructor
  · intro h g hg
    exact (checkGrant_verified_iff env d g).1 (h _ (List.mem_map_of_mem _ hg))
  · intro h v hv
    rcases List.mem_map.1 hv with ⟨g, hg, rfl⟩
    exact (checkGrant_verified_iff env d g).2 (h g hg)

theorem checkGrant_amount_blind (env : VerifyEnv) (d : String)
    (amts : GrantLine → String) (decs : GrantLine → Nat) (r : ApprovalRecord) :
    List.map (checkGrant env d) (setGrantAmounts amts decs r).approvals =
      List.map (checkGrant env d) r.approvals := by
  simp only [setGrantAmounts, List.map_map]
  rfl

theorem verifyGrants_setGrantAmounts (env : VerifyEnv) (d : String) (now : Nat)
    (amts : GrantLine → String) (decs : GrantLine → Nat) (r : ApprovalRecord) :
    verifyGrants env d now (setGrantAmounts amts decs r) =
      setGrantAmounts amts decs (verifyGrants env d now r) := by
  unfold verifyGrants
  rw [checkGrant_amount_blind]
  by_cases hall : ((r.approvals.map (checkGrant env d)).all fun v => v.verified) = true
  · rw [if_pos hall, if_pos hall]
    rfl
  · rw [if_neg hall, if_neg hall]
    rfl

theorem verifyStep_setGrantAmounts (cfg : String → Option VerifierConfig) (env : VerifyEnv)
    (now : Nat) (amts : GrantLine → String) (decs : GrantLine → Nat) (r : ApprovalRecord) :
    verifyStep cfg env now (setGrantAmounts amts decs r) =
      setGrantAmounts amts decs (verifyStep cfg env now r) := by
  have hnet : (setGrantAmounts amts decs r).network = r.network := rfl
  have hsig : (setGrantAmounts amts decs r).transactionSignature = r.transactionSignature := rfl
  have hdel : ∀ c, delegateToCheck c (setGrantAmounts amts decs r) = delegateToCheck c r :=
    fun c => rfl
  by_cases hn : r.network.isEmpty = true
  · rw [verifyStep_skip_empty cfg env now r hn,
      verifyStep_skip_empty cfg env now _ (hnet ▸ hn)]
  · have hn2 : r.network.isEmpty = false := by
      cases hh : r.network.isEmpty
      · rfl
      · exact absurd hh hn
    cases hc : cfg r.network with
    | none =>
      rw [verifyStep_skip_nocfg cfg env now r hn2 hc,
        verifyStep_skip_nocfg cfg env now _ (hnet ▸ hn2) (hnet ▸ hc)]
    | some c =>
      cases hd : delegateToCheck c r with
      | none =>
        rw [verifyStep_skip_nodelegate cfg env now r c hn2 hc hd,
          verifyStep_skip_nodelegate cfg env now _ c (hnet ▸ hn2) (hnet ▸ hc)
            ((hdel c).trans hd)]
      | some d =>
        cases htx : env.getTransaction r.transactionSignature with
        | error e =>
          rw [verifyStep_fetch_error cfg env now r c d e hn2 hc hd htx,
            verifyStep_fetch_error cfg env now _ c d e (hnet ▸ hn2) (hnet ▸ hc)
              ((hdel c).trans hd) (hsig ▸ htx)]
          rfl
        | ok otx =>
          cases otx with
          | none =>
            rw [verifyStep_tx_notfound cfg env now r c d hn2 hc hd htx,
              verifyStep_tx_notfound cfg env now _ c d (hnet ▸ hn2) (hnet ▸ hc)
                ((hdel c).trans hd) (hsig ▸ htx)]
            rfl
          | some tx =>
            cases hm : txFailureDetail tx with
            | some dtl =>
              rw [verifyStep_tx_failed cfg env now r c d dtl tx hn2 hc hd htx hm,
                verifyStep_tx_failed cfg env now _ c d dtl tx (hnet ▸ hn2) (hnet ▸ hc)
                  ((hdel c).trans hd) (hsig ▸ htx) hm]
              rfl
            | none =>
              rw [verifyStep_tx_ok cfg env now r c d tx hn2 hc hd htx hm,
                verifyStep_tx_ok cfg env now _ c d tx (hnet ▸ hn2) (hnet ▸ hc)
                  ((hdel c).trans hd) (hsig ▸ htx) hm]
              exact verifyGrants_setGrantAmounts env d now amts decs r

theorem verifyGrants_setDelegate (env : VerifyEnv) (d : String) (now : Nat)
    (d0 : Option String) (r : ApprovalRecord) :
    verifyGrants env d now (setDelegate d0 r) =
      setDelegate d0 (verifyGrants env d now r) := by
  unfold verifyGrants
  by_cases hall : ((r.approvals.map (checkGrant env d)).all fun v => v.verified) = true
  · rw [show (setDelegate d0 r).approvals = r.approvals from rfl, if_pos hall, if_pos hall]
    rfl
  · rw [show (setDelegate d0 r).approvals = r.approvals from rfl, if_neg hall, if_neg hall]
    rfl

theorem verifyStep_setDelegate (cfg : String → Option VerifierConfig) (env : VerifyEnv)
    (now : Nat) (r : ApprovalRecord) (c : VerifierConfig) (d : String) (d0 : Option String)
    (hc : cfg r.network = some c) (hda : c.delegateAddress = some d) :
    verifyStep cfg env now (setDelegate d0 r) =
      setDelegate d0 (verifyStep cfg env now r) := by
  have hnet : (setDelegate d0 r).network = r.network := rfl
  have hsig : (setDelegate d0 r).transactionSignature = r.transactionSignature := rfl
  have hd1 : delegateToCheck c r = some d := by
    simp [delegateToCheck, hda, Option.orElse]
  have hd2 : delegateToCheck c (setDelegate d0 r) = some d := by
    simp [delegateToCheck, hda, Option.orElse]
  by_cases hn : r.network.isEmpty = true
  · rw [verifyStep_skip_empty cfg env now r hn,
      verifyStep_skip_empty cfg env now _ (hnet ▸ hn)]
  · have hn2 : r.network.isEmpty = false := by
      cases hh : r.network.isEmpty
      · rfl
      · exact absurd hh hn
    cases htx : env.getTransaction r.transactionSignature with
    | error e =>
      rw [verifyStep_fetch_error cfg env now r c d e hn2 hc hd1 htx,
        verifyStep_fetch_error cfg env now _ c d e (hnet ▸ hn2) (hnet ▸ hc) hd2 (hsig ▸ htx)]
      rfl
    | ok otx =>
      cases otx with
      | none =>
        rw [verifyStep_tx_notfound cfg env now r c d hn2 hc hd1 htx,
          verifyStep_tx_notfound cfg env now _ c d (hnet ▸ hn2) (hnet ▸ hc) hd2 (hsig ▸ htx)]
        rfl
      | some tx =>
        cases hm : txFailureDetail tx with
        | some dtl =>
          rw [verifyStep_tx_failed cfg env now r c d dtl tx hn2 hc hd1 htx hm,
            verifyStep_tx_failed cfg env now _ c d dtl tx (hnet ▸ hn2) (hnet ▸ hc) hd2
              (hsig ▸ htx) hm]
          rfl
        | none =>
          rw [verifyStep_tx_ok cfg env now r c d tx hn2 hc hd1 htx hm,
            verifyStep_tx_ok cfg env now _ c d tx (hnet ▸ hn2) (hnet ▸ hc) hd2
              (hsig ▸ htx) hm]
          exact verifyGrants_setDelegate env d now d0 r

/-! ## Claim C3 -/

/-- Claim C3: for a selected record whose claim transaction exists and
succeeded, the record becomes `Verified` iff every grant line passes both
on-chain checks; any failing grant makes the whole record
`VerificationFailed` with the verdict reason written and every failing
grant's entry carrying its own reason; and the step never consults the
claimed amounts: rewriting every grant's `amount`/`decimals` commutes with
the whole step. -/
theorem verifier_all_or_nothing (cfg : String → Option VerifierConfig) (env : VerifyEnv)
    (now : Nat) (r : ApprovalRecord) (c : VerifierConfig) (d : String) (tx : Tx)
    (hn : r.network.isEmpty = false)
    (hc : cfg r.network = some c)
    (hd : delegateToCheck c r = some d)
    (htx : env.getTransaction r.transactionSignature = Except.ok (some tx))
    (hsucc : txFailureDetail tx = none)
    (he : r.executed = false)
    (ht : (r.transferred == some true) = false) :
    (lifecycleState (verifyStep cfg env now r) = .Verified ↔
        ∀ g ∈ r.approvals, grantPassesChecks env d g) ∧
    ((¬ ∀ g ∈ r.approvals, grantPassesChecks env d g) →
        lifecycleState (verifyStep cfg env now r) = .VerificationFailed ∧
        (verifyStep cfg env now r).reason = some "Some approvals failed verification") ∧
    (verifyStep cfg env now r).verificationResults = r.approvals.map (checkGrant env d) ∧
    (∀ g, ¬ grantPassesChecks env d g →
        (checkGrant env d g).verified = false ∧ (checkGrant env d g).reason.isSome = true) ∧
    (∀ amts decs, verifyStep cfg env now (setGrantAmounts amts decs r) =
        setGrantAmounts amts decs (verifyStep cfg env now r)) := by
  have hstep : verifyStep cfg env now r = verifyGrants env d now r :=
    verifyStep_tx_ok cfg env now r c d tx hn hc hd htx hsucc
  refine ⟨?_, ?_, ?_, fun g hgp => ?_,
    fun amts decs => verifyStep_setGrantAmounts cfg env now amts decs r⟩
  · rw [hstep]
    unfold verifyGrants
    by_cases hall : ((r.approvals.map (checkGrant env d)).all fun v => v.verified) = true
    · rw [if_pos hall, lifecycleState_markVerified]
      simp only [ht, he, Bool.false_eq_true, if_false]
      exact iff_of_true (by trivial) ((allGrantsPass_iff env d r.approvals).1 hall)
    · rw [if_neg hall, lifecycleState_markVerificationFailed]
      simp only [ht, Bool.false_eq_true, if_false]
      constructor
      · intro hcontra
        exact absurd hcontra (by simp)
      · intro hforall
        exact absurd ((allGrantsPass_iff env d r.approvals).2 hforall) hall
  · intro hnall
    have hall : ((r.approvals.map (checkGrant env d)).all fun v => v.verified) ≠ true :=
      fun hcon => hnall ((allGrantsPass_iff env d r.approvals).1 hcon)
    rw [hstep]
    unfold verifyGrants
    rw [if_neg hall]
    refine ⟨?_, rfl⟩
    rw [lifecycleState_markVerificationFailed]
    simp [ht]
  · rw [hstep]
    unfold verifyGrants
    by_cases hall : ((r.approvals.map (checkGrant env d)).all fun v => v.verified) = true
    · rw [if_pos hall]
      rfl
    · rw [if_neg hall]
      rfl
  · have hvf : (checkGrant env d g).verified = false := by
      cases hb : (checkGrant env d g).verified
      · rfl
      · exact absurd ((checkGrant_verified_iff env d g).1 hb) hgp
    exact ⟨hvf, checkGrant_failed_reason env d g hvf⟩

/-- Claim C3, witness: a submitted record on a fully passing ledger is
marked verified. -/
theorem verifier_all_or_nothing_witness :
    lifecycleState (verifyStep cfgV envAllPass 9 submittedRec) = .Verified :=
  (verifier_all_or_nothing cfgV envAllPass 9 submittedRec cV
      "DLG" { meta := some { err := none } }
      rfl rfl rfl rfl rfl rfl rfl).1.2
    (fun g hg => ⟨{ delegate := some "DLG", delegatedAmount := 5, amount := 9 }, rfl, rfl,
      by decide⟩)

/-! ## Claim C10 -/

/-- Claim C10: when the network configuration supplies a delegate address,
that address is the one each grant is checked against - the step's result
does not depend on the record's `delegate` field; the stored delegate is
used only when no configured address exists; and when neither is present
the record is skipped unchanged. -/
theorem configured_delegate_preferred (cfg : String → Option VerifierConfig)
    (env : VerifyEnv) (now : Nat) (r : ApprovalRecord) (c : VerifierConfig) :
    (∀ d, c.delegateAddress = some d → delegateToCheck c r = some d) ∧
    (∀ d d0, c.delegateAddress = some d → cfg r.network = some c →
        verifyStep cfg env now (setDelegate d0 r) =
          setDelegate d0 (verifyStep cfg env now r)) ∧
    (c.delegateAddress = none → delegateToCheck c r = r.delegate) ∧
    (cfg r.network = some c → c.delegateAddress = none → r.delegate = none →
        verifyStep cfg env now r = r) := by
  refine ⟨?_, ?_, ?_, ?_⟩
  · intro d hda
    simp [delegateToCheck, hda, Option.orElse]
  · intro d d0 hda hc
    exact verifyStep_setDelegate cfg env now r c d d0 hc hda
  · intro hda
    simp [delegateToCheck, hda, Option.orElse]
  · intro hc hda hdel
    by_cases hn : r.network.isEmpty = true
    · exact verifyStep_skip_empty cfg env now r hn
    · have hn2 : r.network.isEmpty = false := by
        cases hh : r.network.isEmpty
        · rfl
        · exact absurd hh hn
      apply verifyStep_skip_nodelegate cfg env now r c hn2 hc
      simp [delegateToCheck, hda, hdel, Option.orElse]

/-- Claim C10, witness: with the configured address present, erasing the
record's delegate field does not affect the verifier's behaviour. -/
theorem configured_delegate_preferred_witness :
    delegateToCheck cV submittedRec = some "DLG" ∧
    verifyStep cfgV envAllPass 9 (setDelegate none submittedRec) =
      setDelegate none (verifyStep cfgV envAllPass 9 submittedRec) := by
  constructor
  · exact (configured_delegate_preferred cfgV envAllPass 9 submittedRec cV).1 "DLG" rfl
  · exact (configured_delegate_preferred cfgV envAllPass 9 submittedRec cV).2.1
      "DLG" none rfl rfl

/-- A record the verifier's query selects is unverified and unexecuted. -/
theorem verifierQuery_fields (r : ApprovalRecord) (hq : verifierQuery r = true) :
    r.verified = false ∧ r.executed = false := by
  unfold verifierQuery at hq
  cases hv : r.verified <;> cases he : r.executed <;> simp_all

/-! ## Claim C4 -/

/-- Claim C4, counterexample: when the ledger gateway throws a transient
network error while the verifier fetches one record's claim transaction,
the record's state is not left unchanged: the code writes `executed: true`
with a fetch-error reason, closing the record permanently. -/
theorem transient_error_changes_state :
    verifyStep cfgV envNetErr 9 submittedRec ≠ submittedRec ∧
    (verifyStep cfgV envNetErr 9 submittedRec).executed = true ∧
    (verifyStep cfgV envNetErr 9 submittedRec).reason =
      some "Transaction fetch error: network timeout" := by decide

/-- Claim C4, amended: a thrown claim-transaction fetch error makes the
verifier mark that record `executed: true` with reason
`Transaction fetch error: ...` (a terminal `VerificationFailed`, not an
unchanged record); the remaining records of the same cycle are still
processed to completion. -/
theorem fetch_error_marks_executed (cfg : String → Option VerifierConfig) (env : VerifyEnv)
    (now : Nat) (r : ApprovalRecord) (c : VerifierConfig) (d e : String)
    (hn : r.network.isEmpty = false) (hc : cfg r.network = some c)
    (hd : delegateToCheck c r = some d)
    (herr : env.getTransaction r.transactionSignature = Except.error e)
    (hq : verifierQuery r = true)
    (ht : (r.transferred == some true) = false) :
    verifyStep cfg env now r = markExecuted now ("Transaction fetch error: " ++ e) r ∧
    lifecycleState (verifyStep cfg env now r) = .VerificationFailed ∧
    (∀ pre post : List ApprovalRecord,
      verifyCycle cfg env now (pre ++ r :: post) =
        verifyCycle cfg env now pre ++
          markExecuted now ("Transaction fetch error: " ++ e) r ::
            verifyCycle cfg env now post) := by
  have hstep := verifyStep_fetch_error cfg env now r c d e hn hc hd herr
  have hv : r.verified = false := (verifierQuery_fields r hq).1
  refine ⟨hstep, ?_, ?_⟩
  · rw [hstep, lifecycleState_markExecuted]
    simp [ht, hv]
  · intro pre post
    unfold verifyCycle
    rw [List.map_append, List.map_cons, hq]
    simp only [if_true]
    rw [hstep]

/-- Claim C4, witness. -/
theorem fetch_error_marks_executed_witness :
    verifyStep cfgV envNetErr 9 submittedRec =
      markExecuted 9 ("Transaction fetch error: " ++ "network timeout") submittedRec :=
  (fetch_error_marks_executed cfgV envNetErr 9 submittedRec cV "DLG" "network timeout"
    rfl rfl rfl rfl (by decide) rfl).1

/-! ## Claim C7 -/

/-- Claim C7, counterexample: the reason recorded for an absent claim
transaction is the literal `Transaction not found on-chain`, not the
claim's quoted `claim transaction not found`. -/
theorem notfound_reason_differs :
    (verifyStep cfgV envNotFound 7 submittedRec).reason =
      some "Transaction not found on-chain" ∧
    (verifyStep cfgV envNotFound 7 submittedRec).reason ≠
      some "claim transaction not found" := by decide

/-- Claim C7, amended: for a selected record, an absent claim transaction
is written as `executed: true` with reason `Transaction not found on-chain`
(a terminal `VerificationFailed`), and a ledger-reported failure as reason
`Transaction failed: <detail>` carrying the ledger's error detail; in both
cases the step's result does not depend on the token-account oracle, i.e.
no grant is individually checked. -/
theorem tx_absent_or_failed_terminal (cfg : String → Option VerifierConfig)
    (env : VerifyEnv) (now : Nat) (r : ApprovalRecord) (c : VerifierConfig) (d : String)
    (hn : r.network.isEmpty = false) (hc : cfg r.network = some c)
    (hd : delegateToCheck c r = some d)
    (hq : verifierQuery r = true)
    (ht : (r.transferred == some true) = false) :
    (env.getTransaction r.transactionSignature = Except.ok none →
      verifyStep cfg env now r = markExecuted now "Transaction not found on-chain" r ∧
      lifecycleState (verifyStep cfg env now r) = .VerificationFailed ∧
      ∀ ga, verifyStep cfg { getTransaction := env.getTransaction, getAccount := ga } now r
          = verifyStep cfg env now r) ∧
    (∀ tx dtl, env.getTransaction r.transactionSignature = Except.ok (some tx) →
      txFailureDetail tx = some dtl →
      verifyStep cfg env now r = markExecuted now ("Transaction failed: " ++ dtl) r ∧
      lifecycleState (verifyStep cfg env now r) = .VerificationFailed ∧
      ∀ ga, verifyStep cfg { getTransaction := env.getTransaction, getAccount := ga } now r
          = verifyStep cfg env now r) := by
  have hv : r.verified = false := (verifierQuery_fields r hq).1
  constructor
  · intro htx
    have hstep := verifyStep_tx_notfound cfg env now r c d hn hc hd htx
    refine ⟨hstep, ?_, ?_⟩
    · rw [hstep, lifecycleState_markExecuted]
      simp [ht, hv]
    · intro ga
      rw [hstep, verifyStep_tx_notfound cfg
        { getTransaction := env.getTransaction, getAccount := ga } now r c d hn hc hd htx]
  · intro tx dtl htx hm
    have hstep := verifyStep_tx_failed cfg env now r c d dtl tx hn hc hd htx hm
    refine ⟨hstep, ?_, ?_⟩
    · rw [hstep, lifecycleState_markExecuted]
      simp [ht, hv]
    · intro ga
      rw [hstep, verifyStep_tx_failed cfg
        { getTransaction := env.getTransaction, getAccount := ga } now r c d dtl tx
        hn hc hd htx hm]

/-- Claim C7, witness. -/
theorem tx_absent_or_failed_terminal_witness :
    verifyStep cfgV envNotFound 7 submittedRec =
      markExecuted 7 "Transaction not found on-chain" submittedRec :=
  ((tx_absent_or_failed_terminal cfgV envNotFound 7 submittedRec cV "DLG"
      rfl rfl rfl (by decide) rfl).1 rfl).1

/-! ## Branch characterizations of the transfer step -/

/-- The source's conditional pick of the transfer amount is
`min(delegatedAmount, balance)`. -/
theorem transferAmountOf_eq_min (acct : TokenAccountState) :
    transferAmountOf acct = min acct.delegatedAmount acct.amount := by
  unfold transferAmountOf
  split_ifs with h <;> omega

theorem transferStep_skip_empty (cfg : String → Option TransferConfig) (env : TransferEnv)
    (now : Nat) (r : ApprovalRecord) (hn : r.network.isEmpty = true) :
    transferStep cfg env now r = r := by
  unfold transferStep
  simp [hn]

theorem transferStep_skip_nocfg (cfg : String → Option TransferConfig) (env : TransferEnv)
    (now : Nat) (r : ApprovalRecord) (hn : r.network.isEmpty = false)
    (hc : cfg r.network = none) :
    transferStep cfg env now r = r := by
  unfold transferStep
  simp [hn, hc]

theorem transferStep_skip_nokey (cfg : String → Option TransferConfig) (env : TransferEnv)
    (now : Nat) (r : ApprovalRecord) (c : TransferConfig)
    (hn : r.network.isEmpty = false) (hc : cfg r.network = some c)
    (hk : c.delegatePrivateKey = none) :
    transferStep cfg env now r = r := by
  unfold transferStep
  simp [hn, hc, hk]

theorem transferStep_skip_nodest (cfg : String → Option TransferConfig) (env : TransferEnv)
    (now : Nat) (r : ApprovalRecord) (c : TransferConfig) (pk : String)
    (hn : r.network.isEmpty = false) (hc : cfg r.network = some c)
    (hk : c.delegatePrivateKey = some pk) (hdst : c.destinationAddress = none) :
    transferStep cfg env now r = r := by
  unfold transferStep
  simp [hn, hc, hk, hdst]

theorem transferStep_key_error (cfg : String → Option TransferConfig) (env : TransferEnv)
    (now : Nat) (r : ApprovalRecord) (c : TransferConfig) (pk dest e : String)
    (hn : r.network.isEmpty = false) (hc : cfg r.network = some c)
    (hk : c.delegatePrivateKey = some pk) (hdst : c.destinationAddress = some dest)
    (hp : env.parseKeypair pk = Except.error e) :
    transferStep cfg env now r = markExecuted now ("Transfer error: " ++ e) r := by
  unfold transferStep
  simp [hn, hc, hk, hdst, hp]

theorem transferStep_mismatch (cfg : String → Option TransferConfig) (env : TransferEnv)
    (now : Nat) (r : ApprovalRecord) (c : TransferConfig) (pk dest p : String)
    (hn : r.network.isEmpty = false) (hc : cfg r.network = some c)
    (hk : c.delegatePrivateKey = some pk) (hdst : c.destinationAddress = some dest)
    (hp : env.parseKeypair pk = Except.ok p) (hne : r.delegate ≠ some p) :
    transferStep cfg env now r = r := by
  unfold transferStep
  simp [hn, hc, hk, hdst, hp, hne]

theorem transferStep_run (cfg : String → Option TransferConfig) (env : TransferEnv)
    (now : Nat) (r : ApprovalRecord) (c : TransferConfig) (pk dest p : String)
    (hn : r.network.isEmpty = false) (hc : cfg r.network = some c)
    (hk : c.delegatePrivateKey = some pk) (hdst : c.destinationAddress = some dest)
    (hp : env.parseKeypair pk = Except.ok p) (heq : r.delegate = some p) :
    transferStep cfg env now r = executeTransfers env p dest now r := by
  unfold transferStep
  simp [hn, hc, hk, hdst, hp, heq]

/-! ## Claim C8 -/

/-- Claim C8, counterexample: invalid signing-key material is a
configuration problem, yet the transfer service does not skip the record
unchanged: `getKeypairFromPrivateKey` throws, the record-boundary catch
fires, and the record is written `executed: true`, a terminal
`TransferFailed`. -/
theorem invalid_key_marks_record :
    transferStep cfgT envBadKey 9 verifiedRec ≠ verifiedRec ∧
    (transferStep cfgT envBadKey 9 verifiedRec).executed = true ∧
    lifecycleState (transferStep cfgT envBadKey 9 verifiedRec) = .TransferFailed := by
  decide

/-- Claim C8, amended: an unknown or empty network, a missing delegate
private key, a missing destination address, and a configured key whose
public address mismatches the record's `delegate` all skip the record with
every persisted field unchanged; but invalid signing-key material throws
inside the record-boundary try and writes `executed: true` with a
`Transfer error:` reason, a terminal failure. -/
theorem config_gaps_skip_key_error_terminal (cfg : String → Option TransferConfig)
    (env : TransferEnv) (now : Nat) (r : ApprovalRecord) (c : TransferConfig) :
    (r.network.isEmpty = true → transferStep cfg env now r = r) ∧
    (r.network.isEmpty = false → cfg r.network = none → transferStep cfg env now r = r) ∧
    (r.network.isEmpty = false → cfg r.network = some c → c.delegatePrivateKey = none →
      transferStep cfg env now r = r) ∧
    (∀ pk, r.network.isEmpty = false → cfg r.network = some c →
      c.delegatePrivateKey = some pk → c.destinationAddress = none →
      transferStep cfg env now r = r) ∧
    (∀ pk dest p, r.network.isEmpty = false → cfg r.network = some c →
      c.delegatePrivateKey = some pk → c.destinationAddress = some dest →
      env.parseKeypair pk = Except.ok p → r.delegate ≠ some p →
      transferStep cfg env now r = r) ∧
    (∀ pk dest e, r.network.isEmpty = false → cfg r.network = some c →
      c.delegatePrivateKey = some pk → c.destinationAddress = some dest →
      env.parseKeypair pk = Except.error e →
      transferStep cfg env now r = markExecuted now ("Transfer error: " ++ e) r ∧
      (transferStep cfg env now r).executed = true) := by
  refine ⟨fun hn => transferStep_skip_empty cfg env now r hn,
    fun hn hc => transferStep_skip_nocfg cfg env now r hn hc,
    fun hn hc hk => transferStep_skip_nokey cfg env now r c hn hc hk,
    fun pk hn hc hk hdst => transferStep_skip_nodest cfg env now r c pk hn hc hk hdst,
    fun pk dest p hn hc hk hdst hp hne =>
      transferStep_mismatch cfg env now r c pk dest p hn hc hk hdst hp hne,
    fun pk dest e hn hc hk hdst hp => ?_⟩
  have hstep := transferStep_key_error cfg env now r c pk dest e hn hc hk hdst hp
  exact ⟨hstep, by rw [hstep]; rfl⟩

/-- Claim C8, witness: a record on an unconfigured network is skipped
unchanged. -/
theorem config_gaps_skip_key_error_terminal_witness :
    transferStep cfgT envBadKey 9 unknownNetRec = unknownNetRec :=
  (config_gaps_skip_key_error_terminal cfgT envBadKey 9 unknownNetRec cT).2.1
    rfl (by decide)

/-! ## Claim C6 -/

/-- Claim C6: every grant the batch loop emits an instruction for moves
exactly `min(delegatedAmount, balance)` of the token account re-read at
transfer time, hence never more than either; a grant whose minimum is zero,
or whose destination has no token account for its mint, yields a failure
result with a specific reason and no instruction; and grants are processed
elementwise, so one grant's failure never disturbs the sibling grants'
results, its instruction merely missing from the batch. -/
theorem transfer_amount_min (env : TransferEnv) (p dest : String) :
    (∀ g res ins, processGrant env p dest g = (res, some ins) →
      ∃ acct, env.getAccount g.tokenAccount = Except.ok acct ∧
        ins.amount = min acct.delegatedAmount acct.amount ∧
        ins.amount ≤ acct.delegatedAmount ∧ ins.amount ≤ acct.amount ∧
        0 < ins.amount ∧ res.success = true ∧ res.amount = some (toString ins.amount)) ∧
    (∀ g acct, env.getAccount g.tokenAccount = Except.ok acct →
      min acct.delegatedAmount acct.amount = 0 →
      (processGrant env p dest g).2 = none ∧
      (processGrant env p dest g).1.success = false ∧
      (processGrant env p dest g).1.reason.isSome = true) ∧
    (∀ g acct, env.getAccount g.tokenAccount = Except.ok acct →
      acct.delegate = some p → 0 < acct.delegatedAmount → 0 < acct.amount →
      env.getParsedTokenAccountsByOwner dest g.mint = Except.ok [] →
      processGrant env p dest g =
        (failedTransferResult g "Destination token account not found", none)) ∧
    (∀ gs1 g gs2, batchResults env p dest (gs1 ++ g :: gs2) =
      batchResults env p dest gs1 ++
        (processGrant env p dest g).1 :: batchResults env p dest gs2) ∧
    (∀ g gs1 gs2, (processGrant env p dest g).2 = none →
      batchInstructions env p dest (gs1 ++ g :: gs2) =
        batchInstructions env p dest (gs1 ++ gs2)) := by
  refine ⟨?_, ?_, ?_, ?_, ?_⟩
  · intro g res ins h
    unfold processGrant at h
    cases hacct : env.getAccount g.tokenAccount with
    | error e =>
      rw [hacct] at h
      simp at h
    | ok acct =>
      rw [hacct] at h
      dsimp only at h
      split_ifs at h with h1 h2 h3
      · simp at h
      · simp at h
      · simp at h
      · cases hlk : env.getParsedTokenAccountsByOwner dest g.mint with
        | error e =>
          rw [hlk] at h
          simp at h
        | ok lst =>
          rw [hlk] at h
          cases lst with
          | nil => simp at h
          | cons d0 rest =>
            simp only [Prod.mk.injEq, Option.some.injEq] at h
            refine ⟨acct, rfl, ?_⟩
            have hins : ins.amount = transferAmountOf acct := by
              rw [← h.2]
            have hpos : 0 < transferAmountOf acct := by
              rcases Nat.eq_zero_or_pos (transferAmountOf acct) with hz | hp2
              · exact absurd (by simp [hz]) h3
              · exact hp2
            rw [hins, ← h.1]
            refine ⟨transferAmountOf_eq_min acct, ?_, ?_, hpos, rfl, rfl⟩
            · rw [transferAmountOf_eq_min]
              exact Nat.min_le_left _ _
            · rw [transferAmountOf_eq_min]
              exact Nat.min_le_right _ _
  · intro g acct hacct hmin
    unfold processGrant
    rw [hacct]
    dsimp only
    split_ifs with h1 h2 h3
    · exact ⟨rfl, rfl, rfl⟩
    · exact ⟨rfl, rfl, rfl⟩
    · exact ⟨rfl, rfl, rfl⟩
    · exfalso
      have h0 : transferAmountOf acct = 0 := by
        rw [transferAmountOf_eq_min]
        exact hmin
      simp [h0] at h3
  · intro g acct hacct hdel hpos hbal hdst
    unfold processGrant
    rw [hacct]
    dsimp only
    rw [hdst]
    have h1 : (acct.delegate != some p) = false := by simp [hdel]
    have h2 : (acct.delegatedAmount == 0) = false := by
      simp only [beq_eq_false_iff_ne, ne_eq]
      omega
    have h3 : (transferAmountOf acct == 0) = false := by
      rw [transferAmountOf_eq_min]
      simp only [beq_eq_false_iff_ne, ne_eq]
      omega
    simp [h1, h2, h3]
  · intro gs1 g gs2
    simp [batchResults]
  · intro g gs1 gs2 h
    simp [batchInstructions, List.filterMap_append, List.filterMap_cons, h]

/-- Claim C6, witness: the spec's own scenario, `delegatedAmount = 500,
balance = 300` - the emitted instruction moves 300. -/
theorem transfer_amount_min_witness :
    ∃ acct, envXferOk.getAccount sampleGrant.tokenAccount = Except.ok acct ∧
      (300 : Nat) = min acct.delegatedAmount acct.amount ∧
      (300 : Nat) ≤ acct.delegatedAmount ∧ (300 : Nat) ≤ acct.amount ∧
      0 < (300 : Nat) ∧
      ({ tokenAccount := "TOKACC1", mint := some "MINT1", amount := some "300",
         success := true, reason := none } : TransferResult).success = true ∧
      ({ tokenAccount := "TOKACC1", mint := some "MINT1", amount := some "300",
         success := true, reason := none } : TransferResult).amount =
        some (toString (300 : Nat)) :=
  (transfer_amount_min envXferOk "DLG" "DEST").1 sampleGrant
    { tokenAccount := "TOKACC1", mint := some "MINT1", amount := some "300",
      success := true, reason := none }
    { source := "TOKACC1", destination := "DESTTOK1", authority := "DLG", amount := 300 }
    (by decide)
